import Mathlib

/-!
Shallow embedding of the Smart Claims Processing Platform core:
the compliance engine (`check_policy_compliance`), the routing engine
(`intelligent_route`), the classifier wrapper (`classify_claim`) and the
pipeline orchestrator (`ClaimsPipeline.run`), translated from the Python
sources.  Text is modelled as `List Char`; numbers as `Rat`; Python `None`
as `Option.none`; Python truthiness is made explicit at each use site.
-/

namespace Claims

/-- ASCII lower-casing of a character, as Python's `str.lower` acts on the
ASCII inputs used throughout the repository. -/
def lowerChar (c : Char) : Char :=
  if 'A' ≤ c ∧ c ≤ 'Z' then Char.ofNat (c.toNat + 32) else c

/-- Lower-case a text (`str.lower`). -/
def lowerText (s : List Char) : List Char := s.map lowerChar

/-- `startsWith needle hay`: `needle` is a prefix of `hay`. -/
def startsWith : List Char → List Char → Bool
  | [], _ => true
  | _ :: _, [] => false
  | a :: as, b :: bs => a == b && startsWith as bs

/-- `containsSub needle hay`: `needle` occurs contiguously inside `hay`
(Python's `needle in hay` on strings). -/
def containsSub (needle : List Char) : List Char → Bool
  | [] => startsWith needle []
  | c :: cs => startsWith needle (c :: cs) || containsSub needle cs

/-- Characters accepted by the regex class `[A-Z]`. -/
def isUpperAlpha (c : Char) : Bool := 'A' ≤ c && c ≤ 'Z'

/-- Characters accepted by the regex class `\d`. -/
def isDigitChar (c : Char) : Bool := '0' ≤ c && c ≤ '9'

/-- Python `re.match(r"PN-[A-Z]+-\d+", s)`: the pattern must match at the
START of `s` only (trailing characters are allowed).  Because `[A-Z]`,
`-` and `\d` are pairwise disjoint, greedy matching is deterministic. -/
def rePNMatch (s : List Char) : Bool :=
  match s with
  | 'P' :: 'N' :: '-' :: rest =>
      !(rest.takeWhile isUpperAlpha).isEmpty &&
      (match rest.dropWhile isUpperAlpha with
       | '-' :: rest2 => !(rest2.takeWhile isDigitChar).isEmpty
       | _ => false)
  | _ => false

/-- Full-regex reading of the spec sentence "policyNumber must match the
pattern PN-<one-or-more-uppercase-letters>-<one-or-more-digits>": the
WHOLE string is consumed by the pattern.  Kept separate from `rePNMatch`
(the source, which is prefix matching) for the refinement comparison. -/
def specPNFullMatch (s : List Char) : Bool :=
  match s with
  | 'P' :: 'N' :: '-' :: rest =>
      !(rest.takeWhile isUpperAlpha).isEmpty &&
      (match rest.dropWhile isUpperAlpha with
       | '-' :: rest2 =>
           !(rest2.takeWhile isDigitChar).isEmpty &&
           (rest2.dropWhile isDigitChar).isEmpty
       | _ => false)
  | _ => false

/-- Routing decision labels (the `decision` strings of
`workflow_router.intelligent_route`). -/
inductive Decision
  | FlagManualReview
  | AutoDeny
  | RouteSeniorAdjuster
  | RouteSTP
  | RouteGeneralQueue
  deriving DecidableEq, Repr

/-- The `reason` strings of `intelligent_route`, with their interpolated
payloads carried structurally (the f-string `{...:.2f}` formatting is
abstracted into the payload). -/
inductive RouteReason
  | lowConfidence (confidence : Rat)
  | nonCompliant (complianceReason : List Char)
  | highPriorityOrValue
  | lowValueSTP
  | standard
  deriving DecidableEq, Repr

/-- The `claim_data` dict assembled by the pipeline and consumed by
`intelligent_route`; absent dict keys are `none`. -/
structure ClaimData where
  confidence : Option Rat
  is_compliant : Option Bool
  compliance_reason : Option (List Char)
  priority : Option (List Char)
  value : Option Rat
  deriving DecidableEq, Repr

/-- The `routing_rules` section of `config.json`. -/
structure RoutingRules where
  high_value_threshold : Rat
  stp_threshold : Rat
  deriving DecidableEq, Repr

/-- Python truthiness of the optional number `claim_data.get("value")`:
`None` and `0.0` are falsy. -/
def valueTruthy : Option Rat → Bool
  | none => false
  | some v => v != 0

/-- `workflow_router.intelligent_route`, lines 35-52: five rules tried
top to bottom, first match wins.  `CONFIDENCE_THRESHOLD` and
`ROUTING_RULES` (read from `config.json` at import time in the source)
are passed as parameters.  The `isinstance` guard on line 31 is
unreachable in this typed model. -/
def intelligent_route (confidenceThreshold : Rat) (rules : RoutingRules)
    (cd : ClaimData) : Decision × RouteReason :=
  if decide (cd.confidence.getD 0 < confidenceThreshold) then
    (.FlagManualReview, .lowConfidence (cd.confidence.getD 0))
  else if !(cd.is_compliant.getD false) then
    (.AutoDeny, .nonCompliant (cd.compliance_reason.getD "Unknown".toList))
  else if cd.priority == some "High".toList ||
      (valueTruthy cd.value && cd.value.getD 0 > rules.high_value_threshold) then
    (.RouteSeniorAdjuster, .highPriorityOrValue)
  else if valueTruthy cd.value && cd.value.getD 0 ≤ rules.stp_threshold then
    (.RouteSTP, .lowValueSTP)
  else
    (.RouteGeneralQueue, .standard)

/-- A policy record of the `policy_db` section of `config.json`:
a coverage list of claim-type labels and an ordered list of exclusion
phrases. -/
structure Policy where
  coverage : List (List Char)
  exclusions : List (List Char)
  deriving DecidableEq, Repr

/-- The `POLICY_DB` mapping, keyed by policy number. -/
def PolicyDB := List (List Char × Policy)

/-- `POLICY_DB.get(policy_number)`. -/
def dbGet (db : PolicyDB) (pn : List Char) : Option Policy :=
  (db.find? (fun p => p.1 == pn)).map (·.2)

/-- Python truthiness of an optional string: `None` and `""` are falsy. -/
def strTruthy : Option (List Char) → Bool
  | none => false
  | some s => !s.isEmpty

/-- The exclusion loop of `check_policy_compliance` (lines 47-49): return
the first exclusion phrase that occurs as a substring of the lowered
claim text, if any. -/
def findExclusion (exclusions : List (List Char)) (loweredText : List Char) :
    Option (List Char) :=
  match exclusions with
  | [] => none
  | e :: rest =>
      if containsSub e loweredText then some e
      else findExclusion rest loweredText

/-- `compliance_checker.check_policy_compliance`: checks missing fields,
policy-number format (`re.match`), policy lookup, coverage membership and
exclusion phrases, in that order.  Returns `(is_compliant, reason)`.
`policy_number` is optional because the pipeline passes
`entities.get("POLICY_NO")`, which may be `None`. -/
def check_policy_compliance (db : PolicyDB) (policy_number : Option (List Char))
    (claim_type : List Char) (claim_details : List Char) : Bool × List Char :=
  if !(strTruthy policy_number) || claim_type.isEmpty || claim_details.isEmpty then
    (false, "Invalid Data (Missing Policy No., Claim Type, or Claim Details)".toList)
  else
    let pn := policy_number.getD []
    if !(rePNMatch pn) then
      (false, "Invalid Policy Number format: ".toList ++ pn)
    else
      match dbGet db pn with
      | none => (false, "Policy ".toList ++ pn ++ " not found".toList)
      | some policy =>
          if claim_type ∉ policy.coverage then
            (false, "Claim type '".toList ++ claim_type ++ "' is not covered.".toList)
          else
            match findExclusion policy.exclusions (lowerText claim_details) with
            | some e =>
                (false, "Claim rejected due to exclusion clause: '".toList ++ e
                  ++ "'.".toList)
            | none => (true, "Compliant".toList)

/-- The trained scikit-learn model of `claim_classifier.train_model`,
abstracted as the pair of its `predict` (label) and `predict_proba`
maximum (confidence) on a single text. -/
structure TrainedModel where
  predictType : List Char → List Char
  predictConf : List Char → Rat

/-- The fixed `high_priority_keywords` list of `classify_claim`. -/
def high_priority_keywords : List (List Char) :=
  ["major".toList, "fire".toList, "totaled".toList, "emergency".toList,
   "collision".toList]

/-- `claim_classifier.classify_claim`: `(None, 0.0, None)` when the model
or the text is falsy, else the model's label and confidence plus a
keyword-derived priority. -/
def classify_claim (model : Option TrainedModel) (claim_text : List Char) :
    Option (List Char) × Rat × Option (List Char) :=
  match model with
  | none => (none, 0, none)
  | some m =>
      if claim_text.isEmpty then (none, 0, none)
      else
        let claimType := m.predictType claim_text
        let confidence := m.predictConf claim_text
        let priority :=
          if high_priority_keywords.any (fun kw => containsSub kw (lowerText claim_text))
          then "High".toList else "Medium".toList
        (some claimType, confidence, some priority)

/-- The entity dict built by `document_processor.process_document`: it is
either absent (`None, None` return) or carries exactly these four keys,
so a returned dict is never empty/falsy. -/
structure Entities where
  PERSON : List (List Char)
  DATE : List (List Char)
  POLICY_NO : Option (List Char)
  CLAIM_VALUE : Option Rat
  deriving DecidableEq, Repr

/-- Pipeline stages, used to record which stages a run invoked. -/
inductive Stage
  | extraction
  | classification
  | compliance
  | routing
  deriving DecidableEq, Repr

/-- The result record of `ClaimsPipeline.run`: the `Failed` dict carries
only the status flag and a reason; the `Success` dict carries the
extracted data, classification, compliance outcome and routing. -/
inductive RunResult
  | Failed (reason : List Char)
  | Success (extracted_data : Entities) (claimType : List Char)
      (priority : Option (List Char)) (confidence : Rat)
      (compliant : Bool) (details : List Char)
      (final_routing : Decision × RouteReason)
  deriving DecidableEq, Repr

/-- Whether a run result is the `Success` record. -/
def RunResult.isSuccess : RunResult → Bool
  | .Success _ _ _ _ _ _ _ => true
  | .Failed _ => false

/-- Python truthiness of the optional `claim_type` returned by
`classify_claim` (`None` and `""` are falsy). -/
def claimTypeTruthy : Option (List Char) → Bool
  | none => false
  | some s => !s.isEmpty

/-- The configuration consumed by the routing stage. -/
structure PipelineConfig where
  confidence_threshold : Rat
  routing_rules : RoutingRules

/-- `pipeline.ClaimsPipeline.run`, after the extraction collaborator: the
extraction output `(entities?, text?)` stands for the return value of
`process_document(image_path)` (either `(None, None)` or a dict plus
text).  Returns the result record together with the list of stages the
run invoked, in order. -/
def ClaimsPipeline.run (cfg : PipelineConfig) (db : PolicyDB)
    (model : TrainedModel) (entities? : Option Entities)
    (text? : Option (List Char)) : RunResult × List Stage :=
  match entities?, text? with
  | some entities, some text =>
      if text.isEmpty then
        (.Failed "Could not process document. The image may be unreadable or blank.".toList,
         [.extraction])
      else
        let cres := classify_claim (some model) text
        if !(claimTypeTruthy cres.1) then
          (.Failed "Could not classify the claim from the text.".toList,
           [.extraction, .classification])
        else
          let claimType := cres.1.getD []
          let comp := check_policy_compliance db entities.POLICY_NO claimType text
          let claim_data : ClaimData :=
            { confidence := some cres.2.1
              is_compliant := some comp.1
              compliance_reason := some comp.2
              priority := cres.2.2
              value := entities.CLAIM_VALUE }
          let final_decision :=
            intelligent_route cfg.confidence_threshold cfg.routing_rules claim_data
          (.Success entities claimType cres.2.2 cres.2.1 comp.1 comp.2
            final_decision,
           [.extraction, .classification, .compliance, .routing])
  | _, _ =>
      (.Failed "Could not process document. The image may be unreadable or blank.".toList,
       [.extraction])

/-- The guard of routing rule `i` (0-based), read off the successive `if`
conditions of `intelligent_route`; rule 5 is the unconditional default. -/
def ruleGuard (cth : Rat) (rules : RoutingRules) (cd : ClaimData) : Fin 5 → Bool
  | 0 => decide (cd.confidence.getD 0 < cth)
  | 1 => !(cd.is_compliant.getD false)
  | 2 => cd.priority == some "High".toList ||
          (valueTruthy cd.value && decide (cd.value.getD 0 > rules.high_value_threshold))
  | 3 => valueTruthy cd.value && decide (cd.value.getD 0 ≤ rules.stp_threshold)
  | 4 => true

/-- Rule `i` fires when its guard holds and no earlier guard does
(first-match-wins evaluation order). -/
def ruleFires (cth : Rat) (rules : RoutingRules) (cd : ClaimData) (i : Fin 5) : Prop :=
  ruleGuard cth rules cd i = true ∧
    ∀ j : Fin 5, j < i → ruleGuard cth rules cd j = false

/-- The decision each routing rule produces when it fires. -/
def decisionOfRule : Fin 5 → Decision
  | 0 => .FlagManualReview
  | 1 => .AutoDeny
  | 2 => .RouteSeniorAdjuster
  | 3 => .RouteSTP
  | 4 => .RouteGeneralQueue

/-- Abstract guard chain over four booleans with an always-true default. -/
def guardChain (b0 b1 b2 b3 : Bool) : Fin 5 → Bool
  | 0 => b0
  | 1 => b1
  | 2 => b2
  | 3 => b3
  | 4 => true

lemma guardChain_existsUnique (b0 b1 b2 b3 : Bool) :
    ∃! i : Fin 5, guardChain b0 b1 b2 b3 i = true ∧
      ∀ j : Fin 5, j < i → guardChain b0 b1 b2 b3 j = false := by
  cases b0 <;> cases b1 <;> cases b2 <;> cases b3 <;>
    simp only [ExistsUnique] <;> decide

lemma ruleGuard_eq_guardChain (cth : Rat) (rules : RoutingRules) (cd : ClaimData) :
    ruleGuard cth rules cd =
      guardChain (ruleGuard cth rules cd 0) (ruleGuard cth rules cd 1)
        (ruleGuard cth rules cd 2) (ruleGuard cth rules cd 3) := by
  funext i
  fin_cases i <;> rfl

lemma ruleFires_existsUnique (cth : Rat) (rules : RoutingRules) (cd : ClaimData) :
    ∃! i : Fin 5, ruleFires cth rules cd i := by
  unfold ruleFires
  rw [ruleGuard_eq_guardChain]
  exact guardChain_existsUnique _ _ _ _

lemma guardChain_fires_index (b0 b1 b2 b3 : Bool) :
    ∀ i : Fin 5, guardChain b0 b1 b2 b3 i = true →
      (∀ j : Fin 5, j < i → guardChain b0 b1 b2 b3 j = false) →
      i = (if b0 then (0 : Fin 5) else if b1 then 1 else if b2 then 2
            else if b3 then 3 else 4) := by
  cases b0 <;> cases b1 <;> cases b2 <;> cases b3 <;> decide

lemma ruleGuard_zero (cth : Rat) (rules : RoutingRules) (cd : ClaimData) :
    ruleGuard cth rules cd 0 = decide (cd.confidence.getD 0 < cth) := rfl

lemma ruleGuard_one (cth : Rat) (rules : RoutingRules) (cd : ClaimData) :
    ruleGuard cth rules cd 1 = !(cd.is_compliant.getD false) := rfl

lemma ruleGuard_two (cth : Rat) (rules : RoutingRules) (cd : ClaimData) :
    ruleGuard cth rules cd 2 = (cd.priority == some "High".toList ||
      (valueTruthy cd.value &&
        decide (cd.value.getD 0 > rules.high_value_threshold))) := rfl

lemma ruleGuard_three (cth : Rat) (rules : RoutingRules) (cd : ClaimData) :
    ruleGuard cth rules cd 3 = (valueTruthy cd.value &&
      decide (cd.value.getD 0 ≤ rules.stp_threshold)) := rfl

lemma intelligent_route_eq_chain (cth : Rat) (rules : RoutingRules) (cd : ClaimData) :
    intelligent_route cth rules cd =
      if ruleGuard cth rules cd 0 then
        (.FlagManualReview, .lowConfidence (cd.confidence.getD 0))
      else if ruleGuard cth rules cd 1 then
        (.AutoDeny, .nonCompliant (cd.compliance_reason.getD "Unknown".toList))
      else if ruleGuard cth rules cd 2 then
        (.RouteSeniorAdjuster, .highPriorityOrValue)
      else if ruleGuard cth rules cd 3 then
        (.RouteSTP, .lowValueSTP)
      else
        (.RouteGeneralQueue, .standard) := rfl

lemma decisionOfRule_zero : decisionOfRule 0 = .FlagManualReview := rfl
lemma decisionOfRule_one : decisionOfRule 1 = .AutoDeny := rfl
lemma decisionOfRule_two : decisionOfRule 2 = .RouteSeniorAdjuster := rfl
lemma decisionOfRule_three : decisionOfRule 3 = .RouteSTP := rfl
lemma decisionOfRule_four : decisionOfRule 4 = .RouteGeneralQueue := rfl

lemma intelligent_route_decision (cth : Rat) (rules : RoutingRules) (cd : ClaimData)
    (i : Fin 5) (h : ruleFires cth rules cd i) :
    (intelligent_route cth rules cd).1 = decisionOfRule i := by
  obtain ⟨hg, hmin⟩ := h
  rw [ruleGuard_eq_guardChain] at hg hmin
  have hidx := guardChain_fires_index _ _ _ _ i hg hmin
  subst hidx
  rw [intelligent_route_eq_chain]
  cases hb0 : ruleGuard cth rules cd 0 <;> cases hb1 : ruleGuard cth rules cd 1 <;>
    cases hb2 : ruleGuard cth rules cd 2 <;> cases hb3 : ruleGuard cth rules cd 3 <;>
      simp [hb0, hb1, hb2, hb3, decisionOfRule_zero, decisionOfRule_one,
        decisionOfRule_two, decisionOfRule_three, decisionOfRule_four]

/-- C2: for every claim record, exactly one of the five routing rules
fires (the rules are exhaustive and mutually exclusive by the
first-match-wins evaluation order), the routing decision is the one of
the rule that fired, and whenever `confidence < confidenceThreshold` the
route is `FlagManualReview` regardless of compliance, priority or claim
value. -/
theorem routing_exactly_one_rule_fires (cth : Rat) (rules : RoutingRules)
    (cd : ClaimData) :
    (∃! i : Fin 5, ruleFires cth rules cd i) ∧
    (∀ i : Fin 5, ruleFires cth rules cd i →
        (intelligent_route cth rules cd).1 = decisionOfRule i) ∧
    (cd.confidence.getD 0 < cth →
        (intelligent_route cth rules cd).1 = Decision.FlagManualReview) := by
  refine ⟨ruleFires_existsUnique cth rules cd,
    intelligent_route_decision cth rules cd, fun h => ?_⟩
  rw [intelligent_route_eq_chain, ruleGuard_zero]
  simp [h]

/-- Witness for C2: a compliant, high-value record whose confidence 0 is
below the threshold 1 is still flagged for manual review. -/
theorem routing_exactly_one_rule_fires_witness :
    (intelligent_route 1 ⟨10000, 1000⟩
        ⟨some 0, some true, some "Compliant".toList, some "High".toList,
          some 99999⟩).1 = Decision.FlagManualReview :=
  (routing_exactly_one_rule_fires 1 ⟨10000, 1000⟩
    ⟨some 0, some true, some "Compliant".toList, some "High".toList,
      some 99999⟩).2.2 (by decide)

/-- Counterexample to C1 as stated: a compliant, Medium-priority record
passing rules 1-3 whose claim value is PRESENT and equal to 0 (hence
`0 ≤ stpThreshold`) is routed to the general queue, not to STP, because
the source tests `claim_data.get("value")` for Python truthiness and
`0.0` is falsy. -/
theorem stp_zero_value_counterexample :
    ¬((ClaimData.mk (some 1) (some true) (some "Compliant".toList)
        (some "Medium".toList) (some 0)).confidence.getD 0 < 1) ∧
    (ClaimData.mk (some 1) (some true) (some "Compliant".toList)
        (some "Medium".toList) (some 0)).is_compliant.getD false = true ∧
    (ClaimData.mk (some 1) (some true) (some "Compliant".toList)
        (some "Medium".toList) (some 0)).priority ≠ some "High".toList ∧
    (ClaimData.mk (some 1) (some true) (some "Compliant".toList)
        (some "Medium".toList) (some 0)).value = some 0 ∧
    ¬((0 : Rat) > (10000 : Rat)) ∧ (0 : Rat) ≤ (1000 : Rat) ∧
    (intelligent_route 1 ⟨10000, 1000⟩
        (ClaimData.mk (some 1) (some true) (some "Compliant".toList)
          (some "Medium".toList) (some 0))).1 ≠ Decision.RouteSTP ∧
    (intelligent_route 1 ⟨10000, 1000⟩
        (ClaimData.mk (some 1) (some true) (some "Compliant".toList)
          (some "Medium".toList) (some 0))).1 = Decision.RouteGeneralQueue := by
  decide

/-- C1 (amended): for every claim record passing rules 1-3, if the claim
value is present and NONZERO and at most `stpThreshold`, the route is
`RouteSTP` (the original claim fails for a present value of exactly 0,
which Python truthiness treats like an absent value). -/
theorem stp_for_present_nonzero_low_value (cth : Rat) (rules : RoutingRules)
    (cd : ClaimData) (v : Rat)
    (h0 : ¬(cd.confidence.getD 0 < cth))
    (h1 : cd.is_compliant.getD false = true)
    (h2 : cd.priority ≠ some "High".toList)
    (hv : cd.value = some v) (hvnz : v ≠ 0)
    (h3 : ¬(v > rules.high_value_threshold))
    (h4 : v ≤ rules.stp_threshold) :
    intelligent_route cth rules cd = (Decision.RouteSTP, RouteReason.lowValueSTP) := by
  rw [intelligent_route_eq_chain, ruleGuard_zero, ruleGuard_one, ruleGuard_two,
    ruleGuard_three]
  simp [h0, h1, hv, valueTruthy, hvnz, h3, h4]
  exact h2

/-- Witness for the amended C1: Scenario D — value 500 with stpThreshold
1000 is routed to STP. -/
theorem stp_for_present_nonzero_low_value_witness :
    intelligent_route 1 ⟨10000, 1000⟩
        ⟨some 1, some true, some "Compliant".toList, some "Medium".toList,
          some 500⟩ = (Decision.RouteSTP, RouteReason.lowValueSTP) :=
  stp_for_present_nonzero_low_value 1 ⟨10000, 1000⟩
    ⟨some 1, some true, some "Compliant".toList, some "Medium".toList,
      some 500⟩ 500 (by decide) (by decide) (by decide) (by decide) (by decide)
    (by decide) (by decide)

/-- C5: a claim record with NO claim value at all that passes rules 1-3
falls through to `RouteGeneralQueue`; rule 4 does not fire because it
requires a (truthy) value. -/
theorem general_queue_when_value_absent (cth : Rat) (rules : RoutingRules)
    (cd : ClaimData)
    (h0 : ¬(cd.confidence.getD 0 < cth))
    (h1 : cd.is_compliant.getD false = true)
    (h2 : cd.priority ≠ some "High".toList)
    (hv : cd.value = none) :
    intelligent_route cth rules cd
      = (Decision.RouteGeneralQueue, RouteReason.standard) := by
  rw [intelligent_route_eq_chain, ruleGuard_zero, ruleGuard_one, ruleGuard_two,
    ruleGuard_three]
  simp [h0, h1, hv, valueTruthy]
  exact h2

/-- Witness for C5: Scenario E — compliant, priority Medium, value
absent, confidence at the threshold, routed to the general queue. -/
theorem general_queue_when_value_absent_witness :
    intelligent_route 1 ⟨10000, 1000⟩
        ⟨some 1, some true, some "Compliant".toList, some "Medium".toList,
          none⟩ = (Decision.RouteGeneralQueue, RouteReason.standard) :=
  general_queue_when_value_absent 1 ⟨10000, 1000⟩
    ⟨some 1, some true, some "Compliant".toList, some "Medium".toList, none⟩
    (by decide) (by decide) (by decide) (by decide)

/-- C9: a claim record whose value is present and equal to 0 is routed
exactly like the same record with the value absent — same decision and
same reason — because both are falsy to `claim_data.get("value") and`. -/
theorem route_zero_value_eq_absent (cth : Rat) (rules : RoutingRules)
    (conf : Option Rat) (isc : Option Bool) (cr : Option (List Char))
    (prio : Option (List Char)) :
    intelligent_route cth rules ⟨conf, isc, cr, prio, some 0⟩ =
      intelligent_route cth rules ⟨conf, isc, cr, prio, none⟩ := by
  simp [intelligent_route, valueTruthy]

/-- C10: a claim record with an ABSENT confidence field is treated as
confidence 0.0; whenever the threshold is positive it is always flagged
for manual review, with the reason citing confidence 0. -/
theorem absent_confidence_flag_manual_review (cth : Rat) (rules : RoutingRules)
    (cd : ClaimData) (hc : cd.confidence = none) (hth : 0 < cth) :
    intelligent_route cth rules cd
      = (Decision.FlagManualReview, RouteReason.lowConfidence 0) := by
  rw [intelligent_route_eq_chain, ruleGuard_zero]
  simp [hc, hth]

/-- Witness for C10: no confidence key, compliant and high-value, still
flagged for manual review with cited confidence 0. -/
theorem absent_confidence_flag_manual_review_witness :
    intelligent_route 1 ⟨10000, 1000⟩
        ⟨none, some true, some "Compliant".toList, some "Medium".toList, some 500⟩
      = (Decision.FlagManualReview, RouteReason.lowConfidence 0) :=
  absent_confidence_flag_manual_review 1 ⟨10000, 1000⟩
    ⟨none, some true, some "Compliant".toList, some "Medium".toList, some 500⟩
    (by decide) (by decide)

lemma findExclusion_first (pre suf : List (List Char)) (e text : List Char)
    (hpre : ∀ x ∈ pre, containsSub x text = false)
    (he : containsSub e text = true) :
    findExclusion (pre ++ e :: suf) text = some e := by
  induction pre with
  | nil => simp [findExclusion, he]
  | cons a as ih =>
      have ha := hpre a (by simp)
      simp only [List.cons_append, findExclusion, ha]
      simp only [Bool.false_eq_true, if_false]
      exact ih (fun x hx => hpre x (by simp [hx]))

/-- Counterexample to C3 as stated: (a) the policy number `PN-A-1x` does
not match the full pattern `PN-[A-Z]+-\d+` yet `check_policy_compliance`
does NOT return the format-error reason for it, because the source uses
`re.match`, which only anchors at the start, so `PN-A-1x` passes the
format check and fails with a policy-not-found reason instead; (b) for
the non-matching policy number `BAD` with an empty claim type (one value
of "the other inputs"), the missing-data reason is returned, which does
not mention `BAD` at all. -/
theorem policy_format_counterexample :
    specPNFullMatch "PN-A-1x".toList = false ∧
    rePNMatch "BAD".toList = false ∧ specPNFullMatch "BAD".toList = false ∧
    check_policy_compliance [] (some "PN-A-1x".toList) "collision".toList
        "claim text".toList = (false, "Policy PN-A-1x not found".toList) ∧
    "Policy PN-A-1x not found".toList ≠
      "Invalid Policy Number format: ".toList ++ "PN-A-1x".toList ∧
    check_policy_compliance [] (some "BAD".toList) [] "claim text".toList
      = (false, "Invalid Data (Missing Policy No., Claim Type, or Claim Details)".toList) ∧
    containsSub "BAD".toList
      "Invalid Data (Missing Policy No., Claim Type, or Claim Details)".toList = false := by
  decide

/-- C3 (amended): for every NON-EMPTY policy number that does not match
`PN-[A-Z]+-\d+` at its start (Python `re.match` semantics) and all
NON-EMPTY claim types and claim details, `check_policy_compliance`
returns non-compliant with the format-error reason that appends the
offending value. -/
theorem policy_format_error (db : PolicyDB) (pn ct cd : List Char)
    (hpn : pn ≠ []) (hre : rePNMatch pn = false) (hct : ct ≠ []) (hcd : cd ≠ []) :
    check_policy_compliance db (some pn) ct cd
      = (false, "Invalid Policy Number format: ".toList ++ pn) := by
  unfold check_policy_compliance
  simp [strTruthy, hpn, hre, hct, hcd]

/-- Witness for the amended C3: `XX-1` is rejected with the format-error
reason naming it. -/
theorem policy_format_error_witness :
    check_policy_compliance [] (some "XX-1".toList) "collision".toList
        "claim text".toList
      = (false, "Invalid Policy Number format: ".toList ++ "XX-1".toList) :=
  policy_format_error [] "XX-1".toList "collision".toList "claim text".toList
    (by decide) (by decide) (by decide) (by decide)

/-- C4: exclusion matching scans the policy's exclusions in stored order
and the first phrase occurring as a case-insensitive substring of the
claim text yields non-compliant with a reason naming that exclusion.
Stated under the Policy-Store invariant that stored exclusion phrases
are lowercase (section 3 of the spec), under which the source's
`exclusion in claim_details.lower()` test is exactly case-insensitive
substring matching. -/
theorem exclusion_first_match (db : PolicyDB) (pn ct text : List Char)
    (policy : Policy) (pre suf : List (List Char)) (e : List Char)
    (hpn : pn ≠ []) (hct : ct ≠ []) (htext : text ≠ [])
    (hre : rePNMatch pn = true)
    (hdb : dbGet db pn = some policy)
    (hcov : ct ∈ policy.coverage)
    (hexc : policy.exclusions = pre ++ e :: suf)
    (hlower : ∀ x ∈ policy.exclusions, lowerText x = x)
    (hpre : ∀ x ∈ pre, containsSub (lowerText x) (lowerText text) = false)
    (hmatch : containsSub (lowerText e) (lowerText text) = true) :
    check_policy_compliance db (some pn) ct text
      = (false, "Claim rejected due to exclusion clause: '".toList ++ e
          ++ "'.".toList) := by
  have hle : lowerText e = e := hlower e (by simp [hexc])
  rw [hle] at hmatch
  have hfind : findExclusion policy.exclusions (lowerText text) = some e := by
    rw [hexc]
    refine findExclusion_first pre suf e (lowerText text) (fun x hx => ?_) hmatch
    have hlx : lowerText x = x := hlower x (by simp [hexc, hx])
    rw [← hlx]
    exact hpre x hx
  unfold check_policy_compliance
  simp [strTruthy, hpn, hct, htext, hre, hdb, hcov, hfind]

/-- Witness for C4: a policy with exclusion `war` rejects the claim text
`warranty issue` (substring, not whole-word, matching). -/
theorem exclusion_first_match_witness :
    check_policy_compliance
        [("PN-AUTO-1001".toList,
          Policy.mk ["collision".toList] ["war".toList])]
        (some "PN-AUTO-1001".toList) "collision".toList "warranty issue".toList
      = (false, "Claim rejected due to exclusion clause: '".toList
          ++ "war".toList ++ "'.".toList) :=
  exclusion_first_match
    [("PN-AUTO-1001".toList, Policy.mk ["collision".toList] ["war".toList])]
    "PN-AUTO-1001".toList "collision".toList "warranty issue".toList
    (Policy.mk ["collision".toList] ["war".toList]) [] [] "war".toList
    (by decide) (by decide) (by decide) (by decide) (by decide) (by decide)
    (by decide) (by decide) (by decide) (by decide)

/-- C8: `classify_claim` returns confidence 0.0 whenever the claim type
is absent; and whenever the claim type is defined the priority is also
defined and equals High exactly when one of the fixed keywords occurs as
a case-insensitive substring of the claim text, else Medium — the
priority never depends on the confidence. -/
theorem classify_claim_contract (model : Option TrainedModel) (text : List Char) :
    ((classify_claim model text).1 = none → (classify_claim model text).2.1 = 0) ∧
    (∀ ct : List Char, (classify_claim model text).1 = some ct →
      (classify_claim model text).2.2 =
        some (if high_priority_keywords.any
                (fun kw => containsSub kw (lowerText text))
              then "High".toList else "Medium".toList)) := by
  cases model with
  | none => simp [classify_claim]
  | some m =>
      by_cases h : text.isEmpty
      · simp [classify_claim, h]
      · simp [classify_claim, h]

/-- Witness for C8: text containing the keyword `collision` gets High
priority, independently of the constant confidence 1 of the model. -/
theorem classify_claim_contract_witness :
    (classify_claim
        (some (TrainedModel.mk (fun _ => "Auto Collision".toList) (fun _ => 1)))
        "major collision damage".toList).2.2 = some "High".toList := by
  have h := (classify_claim_contract
      (some (TrainedModel.mk (fun _ => "Auto Collision".toList) (fun _ => 1)))
      "major collision damage".toList).2 "Auto Collision".toList rfl
  rw [h]
  decide

/-- C6: when extraction yields no entities or no text, or classification
yields no (truthy) claim type, the orchestrator returns the `Failed`
record — which carries only the status flag and a human-readable reason
— and the later stages are not invoked: the stage trace stops at the
failing stage. -/
theorem pipeline_short_circuits_on_failure (cfg : PipelineConfig)
    (db : PolicyDB) (model : TrainedModel) (entities? : Option Entities)
    (text? : Option (List Char)) :
    ((entities? = none ∨ text? = none ∨ text? = some []) →
      ClaimsPipeline.run cfg db model entities? text?
        = (.Failed "Could not process document. The image may be unreadable or blank.".toList,
           [Stage.extraction])) ∧
    (∀ entities text, entities? = some entities → text? = some text →
      text ≠ [] → claimTypeTruthy (classify_claim (some model) text).1 = false →
      ClaimsPipeline.run cfg db model entities? text?
        = (.Failed "Could not classify the claim from the text.".toList,
           [Stage.extraction, Stage.classification])) := by
  constructor
  · rintro (h | h | h) <;> subst h
    · rcases text? with _ | t <;> simp [ClaimsPipeline.run]
    · rcases entities? with _ | e <;> simp [ClaimsPipeline.run]
    · rcases entities? with _ | e <;> simp [ClaimsPipeline.run]
  · rintro entities text rfl rfl htext hct
    simp [ClaimsPipeline.run, htext, hct]

/-- Witness for C6: a blank extraction fails with the document reason and
only the extraction stage runs; a classifier returning the empty label
fails with the classification reason after exactly two stages. -/
theorem pipeline_short_circuits_on_failure_witness :
    ClaimsPipeline.run ⟨1, 10000, 1000⟩ []
        (TrainedModel.mk (fun _ => []) (fun _ => 1)) none none
      = (.Failed "Could not process document. The image may be unreadable or blank.".toList,
         [Stage.extraction]) ∧
    ClaimsPipeline.run ⟨1, 10000, 1000⟩ []
        (TrainedModel.mk (fun _ => []) (fun _ => 1))
        (some (Entities.mk [] [] none none)) (some "claim form text".toList)
      = (.Failed "Could not classify the claim from the text.".toList,
         [Stage.extraction, Stage.classification]) :=
  ⟨(pipeline_short_circuits_on_failure ⟨1, 10000, 1000⟩ []
      (TrainedModel.mk (fun _ => []) (fun _ => 1)) none none).1 (Or.inl rfl),
   (pipeline_short_circuits_on_failure ⟨1, 10000, 1000⟩ []
      (TrainedModel.mk (fun _ => []) (fun _ => 1))
      (some (Entities.mk [] [] none none)) (some "claim form text".toList)).2
     (Entities.mk [] [] none none) "claim form text".toList rfl rfl
     (by decide) (by decide)⟩

/-- C7: the compliance and routing stages are total — they always return
a result record — so whenever the compliance stage is reached the run
also invokes routing and completes with the `Success` record. -/
theorem pipeline_success_once_compliance_reached (cfg : PipelineConfig)
    (db : PolicyDB) (model : TrainedModel) (entities? : Option Entities)
    (text? : Option (List Char))
    (h : Stage.compliance ∈ (ClaimsPipeline.run cfg db model entities? text?).2) :
    (ClaimsPipeline.run cfg db model entities? text?).1.isSuccess = true ∧
    Stage.routing ∈ (ClaimsPipeline.run cfg db model entities? text?).2 := by
  rcases entities? with _ | entities
  · rcases text? with _ | text <;> simp [ClaimsPipeline.run] at h
  · rcases text? with _ | text
    · simp [ClaimsPipeline.run] at h
    · by_cases htext : text.isEmpty
      · simp [ClaimsPipeline.run, htext] at h
      · by_cases hct : claimTypeTruthy (classify_claim (some model) text).1
        · simp [ClaimsPipeline.run, htext, hct, RunResult.isSuccess]
        · simp [ClaimsPipeline.run, htext, hct] at h

/-- Witness for C7: a concrete run that reaches compliance (even with an
empty policy DB, so the claim is non-compliant and auto-denied) still
ends in a Success record with routing invoked. -/
theorem pipeline_success_once_compliance_reached_witness :
    (ClaimsPipeline.run ⟨1, 10000, 1000⟩ []
        (TrainedModel.mk (fun _ => "collision".toList) (fun _ => 1))
        (some (Entities.mk [] [] none none))
        (some "claim form text".toList)).1.isSuccess = true ∧
    Stage.routing ∈ (ClaimsPipeline.run ⟨1, 10000, 1000⟩ []
        (TrainedModel.mk (fun _ => "collision".toList) (fun _ => 1))
        (some (Entities.mk [] [] none none))
        (some "claim form text".toList)).2 :=
  pipeline_success_once_compliance_reached ⟨1, 10000, 1000⟩ []
    (TrainedModel.mk (fun _ => "collision".toList) (fun _ => 1))
    (some (Entities.mk [] [] none none)) (some "claim form text".toList)
    (by decide)

end Claims

example : Claims.rePNMatch "PN-AUTO-1001".toList = true := by decide
example : Claims.rePNMatch "PN-A-1x".toList = true := by decide
example : Claims.specPNFullMatch "PN-A-1x".toList = false := by decide
example : Claims.rePNMatch "pn-A-1".toList = false := by decide
example : Claims.containsSub "war".toList "warranty issue".toList = true := by decide
example :
    (Claims.intelligent_route 0 ⟨10000, 1000⟩
      ⟨some 1, some true, some "Compliant".toList, some "Medium".toList, some 500⟩).1
      = Claims.Decision.RouteSTP := by decide
